import Mathlib

/-!
Verification of the BMS_rust plant-model and controller layer.

The Rust source is shallowly embedded over ℚ: every `f64` becomes a
rational, mutation of `&mut self` becomes a function from the old record
to the new one, and the floating-point literals of the source become the
exact rationals they denote.  Division in ℚ is total with `x / 0 = 0`;
the one place the source can divide by zero (`PidController::compute`
with `dt == 0`) is noted at the definition.
-/

namespace BMS

/-- Embeds `PidController` from `src/control.rs`: gains, accumulated
integral, last error and the fixed time step. -/
structure PidController where
  kp : ℚ
  ki : ℚ
  kd : ℚ
  last_error : ℚ
  integral : ℚ
  dt : ℚ
deriving DecidableEq, Repr

/-- Embeds `PidController::new` (`src/control.rs` lines 13-22): stores the
gains and `dt` unchecked and zeroes `last_error` and `integral`. -/
def PidController.new (kp ki kd dt : ℚ) : PidController :=
  { kp := kp, ki := ki, kd := kd, last_error := 0, integral := 0, dt := dt }

/-- Modelled from the spec: the repository has no validating constructor
for `PidController`; this claim-side definition follows the spec's words
("`dt` must be > 0 ... must be rejected at construction") and rejects a
non-positive `dt`, for comparison with the source's `new`. -/
def PidController.new_checked (kp ki kd dt : ℚ) : Option PidController :=
  if dt ≤ 0 then none else some (PidController.new kp ki kd dt)

/-- Embeds `PidController::compute` (`src/control.rs` lines 25-31).
Returns the updated controller together with the control output.  In the
source the derivative divides by `dt` (an `f64` division); here ℚ
division is used, which is total. -/
def PidController.compute (c : PidController) (setpoint measured : ℚ) :
    PidController × ℚ :=
  let error := setpoint - measured
  let integral := c.integral + error * c.dt
  let derivative := (error - c.last_error) / c.dt
  let out := c.kp * error + c.ki * integral + c.kd * derivative
  ({ c with integral := integral, last_error := error }, out)

/-- Embeds `PidController::compute_adaptive` (`src/control.rs` lines
35-39): scales the base PID output by 1.5 when `|error| > 1.0`. -/
def PidController.compute_adaptive (c : PidController) (setpoint measured : ℚ) :
    PidController × ℚ :=
  let error := setpoint - measured
  let factor : ℚ := if |error| > 1 then 1.5 else 1
  let r := c.compute setpoint measured
  (r.1, factor * r.2)

/-- Iterated zero-error calls: `computeSeq c vs` performs
`compute v v` for each `v` in `vs` in order (so `setpoint == measured`
on every call), returning the final controller state and the list of
outputs. -/
def PidController.computeSeq (c : PidController) : List ℚ → PidController × List ℚ
  | [] => (c, [])
  | v :: vs =>
    let r := c.compute v v
    let rest := r.1.computeSeq vs
    (rest.1, r.2 :: rest.2)

/-- Embeds `Battery` from `src/simulation.rs`. -/
structure Battery where
  soc : ℚ
  voltage : ℚ
  current : ℚ
  temperature : ℚ
deriving DecidableEq, Repr

/-- Embeds `Battery::update` (`src/simulation.rs` lines 154-163): net
current is `charge_current - discharge_current`, SoC integrates by
`net_current * 0.1` and is clamped into [0, 100], voltage is the
nonlinear OCV minus the resistive drop, and `current` records the net
current.  The source function takes no charging-mode flag. -/
def Battery.update (b : Battery) (charge_current discharge_current : ℚ) : Battery :=
  let net_current := charge_current - discharge_current
  let soc1 := b.soc + net_current * 0.1
  let soc2 := if soc1 > 100 then 100 else soc1
  let soc3 := if soc2 < 0 then 0 else soc2
  let r_int : ℚ := 0.1
  let ocv := 47 + 6 * ((soc3 / 100) ^ (2 : ℕ))
  { soc := soc3
    voltage := ocv - net_current * r_int
    current := net_current
    temperature := b.temperature }

/-- Modelled from the spec: the three-argument battery update the spec
describes ("net current is `charge_current` alone when `charging_mode`
is true, else `charge_current - discharge_current`"); the source's
`Battery::update` has no such flag, so this claim-side definition
follows the spec's words for comparison. -/
def Battery.update_spec (b : Battery) (charge_current discharge_current : ℚ)
    (charging_mode : Bool) : Battery :=
  let net_current :=
    if charging_mode then charge_current else charge_current - discharge_current
  let soc1 := b.soc + net_current * 0.1
  let soc2 := if soc1 > 100 then 100 else soc1
  let soc3 := if soc2 < 0 then 0 else soc2
  let r_int : ℚ := 0.1
  let ocv := 47 + 6 * ((soc3 / 100) ^ (2 : ℕ))
  { soc := soc3
    voltage := ocv - net_current * r_int
    current := net_current
    temperature := b.temperature }

/-- Embeds `FuelCell::compute_oxygen_concentration`
(`src/simulation.rs` lines 131-133).  The method reads no field of
`self`, so it is embedded as a function of the pressure alone:
`0.21 * (manifold_pressure / 101325.0)`. -/
def FuelCell.compute_oxygen_concentration (manifold_pressure : ℚ) : ℚ :=
  0.21 * (manifold_pressure / 101325)

/-- Claim-side definition following the spec's words: the spec states the
oxygen-concentration proxy is `min(1.0, manifold_pressure / 101325)`. -/
def FuelCell.spec_oxygen_concentration (manifold_pressure : ℚ) : ℚ :=
  min 1 (manifold_pressure / 101325)

/-- Embeds `Manifold` from `src/simulation/manifold.rs`. -/
structure Manifold where
  pressure : ℚ
  volume : ℚ
  temperature : ℚ
deriving DecidableEq, Repr

/-- Embeds `Manifold::update` (`src/simulation/manifold.rs` lines
34-69): a mass-balance term, a baseline leak, an active vent and a
proportional control term (both only above the 380 kPa target, with
discharge-dependent gains), then a floor at ambient pressure. -/
def Manifold.update (m : Manifold) (mass_flow_in mass_flow_out dt : ℚ)
    (is_discharging : Bool) : Manifold :=
  let r_air : ℚ := 287
  let ambient_pressure : ℚ := 101325
  let target_pressure : ℚ := 380000
  let dP_mass := (r_air * m.temperature / m.volume) * (mass_flow_in - mass_flow_out) * dt
  let k_leak : ℚ := 0.05
  let dP_leak := k_leak * (m.pressure - ambient_pressure) * dt
  let k_vent : ℚ := if is_discharging then 0.1 else 0.05
  let dP_vent :=
    if m.pressure > target_pressure then k_vent * (m.pressure - target_pressure) * dt else 0
  let k_control : ℚ := if is_discharging then 0.2 else 0.1
  let dP_control :=
    if m.pressure > target_pressure then k_control * (m.pressure - target_pressure) * dt else 0
  let p1 := m.pressure + (dP_mass - dP_leak - dP_vent - dP_control)
  let p2 := if p1 < ambient_pressure then ambient_pressure else p1
  { m with pressure := p2 }

/-- Claim-side mass-balance term, following the spec's words. -/
def dP_mass_term (temperature volume mass_flow_in mass_flow_out dt : ℚ) : ℚ :=
  (287 * temperature / volume) * (mass_flow_in - mass_flow_out) * dt

/-- Claim-side baseline-leak term, following the spec's words. -/
def dP_leak_term (p dt : ℚ) : ℚ :=
  0.05 * (p - 101325) * dt

/-- The vent gain of `Manifold::update`: 0.1 while discharging, else 0.05. -/
def k_vent_of (is_discharging : Bool) : ℚ :=
  if is_discharging then 0.1 else 0.05

/-- The control gain of `Manifold::update`: 0.2 while discharging, else 0.1. -/
def k_control_of (is_discharging : Bool) : ℚ :=
  if is_discharging then 0.2 else 0.1

/-- Claim-side active-vent term, following the spec's words: applied only
above the 380 kPa target. -/
def dP_vent_term (p dt : ℚ) (is_discharging : Bool) : ℚ :=
  if p > 380000 then k_vent_of is_discharging * (p - 380000) * dt else 0

/-- Claim-side proportional-control term, following the spec's words:
applied only above the 380 kPa target. -/
def dP_control_term (p dt : ℚ) (is_discharging : Bool) : ℚ :=
  if p > 380000 then k_control_of is_discharging * (p - 380000) * dt else 0

/-- Embeds the hysteresis mode switch of the main loop
(`src/main_console.rs` lines 39-50): one evaluation of the
charging/discharging decision against the thresholds, returning the new
charging flag. -/
def updateChargingMode (charging_mode : Bool) (soc lower_threshold upper_threshold : ℚ) :
    Bool :=
  if charging_mode then
    if soc > upper_threshold then false else true
  else
    if soc < lower_threshold then true else false

/-! ## Helper lemmas -/

/-- The clamped SoC written with `min`/`max`: the two sequential clamp
branches of `Battery.update` amount to clamping into [0, 100]. -/
lemma Battery.update_soc_eq (b : Battery) (c d : ℚ) :
    (b.update c d).soc = min 100 (max 0 (b.soc + (c - d) * 0.1)) := by
  simp only [Battery.update]
  split_ifs with h1 h2 h3 <;>
    · rw [min_def, max_def]
      split_ifs <;> linarith

/-- A floor written as `if` equals `max`. -/
lemma ite_floor_eq_max (a b : ℚ) : (if a < b then b else a) = max b a := by
  rcases lt_or_le a b with h | h
  · rw [if_pos h, max_eq_left h.le]
  · rw [if_neg (not_lt.mpr h), max_eq_right h]

/-- A zero-error `compute` call keeps the integral. -/
lemma compute_self_integral (c : PidController) (v : ℚ) :
    (c.compute v v).1.integral = c.integral := by
  simp [PidController.compute]

/-- A zero-error `compute` call sets `last_error` to 0. -/
lemma compute_self_last_error (c : PidController) (v : ℚ) :
    (c.compute v v).1.last_error = 0 := by
  simp [PidController.compute]

/-- A controller with zero integral and zero last error is a fixed point
of zero-error `compute`, with output 0. -/
lemma compute_self_of_zero (c : PidController) (v : ℚ)
    (h1 : c.integral = 0) (h2 : c.last_error = 0) :
    c.compute v v = (c, 0) := by
  cases c with
  | mk kp ki kd lerr intg dt => simp_all [PidController.compute]

/-- Zero-error sequences keep the integral. -/
lemma computeSeq_integral (c : PidController) (vs : List ℚ) :
    (c.computeSeq vs).1.integral = c.integral := by
  induction vs generalizing c with
  | nil => rfl
  | cons v vs ih => simp [PidController.computeSeq, ih, compute_self_integral]

/-- After a nonempty zero-error sequence, `last_error` is 0. -/
lemma computeSeq_last_error (c : PidController) (v : ℚ) (vs : List ℚ) :
    ((c.computeSeq (v :: vs)).1).last_error = 0 := by
  induction vs generalizing c v with
  | nil => simp [PidController.computeSeq, compute_self_last_error]
  | cons w ws ih =>
      have : (c.computeSeq (v :: w :: ws)).1 =
          (((c.compute v v).1).computeSeq (w :: ws)).1 := rfl
      rw [this]
      exact ih _ _

/-- A fresh controller stays fixed along a zero-error sequence and every
output is 0. -/
lemma computeSeq_zero_outputs (c : PidController) (vs : List ℚ)
    (h1 : c.integral = 0) (h2 : c.last_error = 0) :
    (c.computeSeq vs).1 = c ∧ ∀ o ∈ (c.computeSeq vs).2, o = 0 := by
  induction vs with
  | nil => exact ⟨rfl, by simp [PidController.computeSeq]⟩
  | cons v vs ih =>
      have hfix := compute_self_of_zero c v h1 h2
      refine ⟨?_, ?_⟩
      · simp [PidController.computeSeq, hfix, ih.1]
      · intro o ho
        simp [PidController.computeSeq, hfix, List.mem_cons] at ho
        rcases ho with ho | ho
        · exact ho
        · exact ih.2 o ho

/-! ## Claim theorems -/

/-- Claim C9: `compute_adaptive` leaves the controller in exactly the
same post-state as `compute` with the same arguments, and returns the
`compute` output scaled by 1.5 when `|setpoint - measured| > 1.0` and by
1.0 otherwise. -/
theorem c9_compute_adaptive_refines_compute (c : PidController) (s m : ℚ) :
    (c.compute_adaptive s m).1 = (c.compute s m).1 ∧
      (c.compute_adaptive s m).2 =
        (if |s - m| > 1 then (1.5 : ℚ) else 1) * (c.compute s m).2 :=
  ⟨rfl, rfl⟩

/-- Claim C10: `Battery::update` leaves the temperature field unchanged;
only `soc`, `voltage` and `current` are recomputed. -/
theorem c10_battery_update_preserves_temperature (b : Battery) (c d : ℚ) :
    (b.update c d).temperature = b.temperature := rfl

/-- Claim C6: after any `Manifold::update`, pressure is at least 101325
Pa, for every starting state, mass flows, `dt` and discharge flag. -/
theorem c6_manifold_pressure_floor (m : Manifold) (mfi mfo dt : ℚ) (d : Bool) :
    101325 ≤ (m.update mfi mfo dt d).pressure := by
  simp only [Manifold.update]
  split_ifs <;> linarith

/-- Claim C7: the hysteresis mode switch flips Discharging→Charging
exactly when SoC < lower, Charging→Discharging exactly when SoC > upper,
and otherwise keeps the mode; with lower=65, upper=75 the scenario
60 → Charging, 70 → stays Charging, 76 → Discharging holds. -/
theorem c7_hysteresis_mode_switch (soc l u : ℚ) :
    (updateChargingMode false soc l u = true ↔ soc < l) ∧
    (updateChargingMode true soc l u = false ↔ u < soc) ∧
    updateChargingMode false 60 65 75 = true ∧
    updateChargingMode true 70 65 75 = true ∧
    updateChargingMode true 76 65 75 = false := by
  refine ⟨?_, ?_, by norm_num [updateChargingMode], by norm_num [updateChargingMode],
    by norm_num [updateChargingMode]⟩ <;>
    · simp only [updateChargingMode]
      split_ifs <;> simp_all

/-- Claim C1 counterexample: at one atmosphere (101325 Pa) the code's
oxygen concentration is 0.21, while `min(1.0, p / 101325)` is 1, so the
computation is not `min(1.0, p / 101325)`. -/
theorem c1_counterexample :
    FuelCell.compute_oxygen_concentration 101325 = 0.21 ∧
    FuelCell.spec_oxygen_concentration 101325 = 1 ∧
    (0.21 : ℚ) ≠ 1 := by
  refine ⟨?_, ?_, by norm_num⟩
  · norm_num [FuelCell.compute_oxygen_concentration]
  · norm_num [FuelCell.spec_oxygen_concentration]

/-- Claim C1 (amended): the oxygen-concentration computation returns
`0.21 * (p / 101325)`; it never exceeds 0.21 for pressures up to one
atmosphere and is uncapped above (it exceeds 1 at ten atmospheres). -/
theorem c1_oxygen_concentration_scaled (p : ℚ) :
    FuelCell.compute_oxygen_concentration p = 0.21 * (p / 101325) ∧
    (0 ≤ p → p ≤ 101325 → FuelCell.compute_oxygen_concentration p ≤ 0.21) ∧
    1 < FuelCell.compute_oxygen_concentration 1013250 := by
  refine ⟨rfl, ?_, by norm_num [FuelCell.compute_oxygen_concentration]⟩
  intro h0 h1
  simp only [FuelCell.compute_oxygen_concentration]
  nlinarith

/-- Claim C1 witness: the amended bound evaluated at one atmosphere. -/
theorem c1_oxygen_concentration_scaled_witness :
    FuelCell.compute_oxygen_concentration 101325 ≤ 0.21 :=
  (c1_oxygen_concentration_scaled 101325).2.1 (by norm_num) (by norm_num)

/-- Claim C2 counterexample: the source's `Battery::update` takes no
charging-mode flag; at SoC 50 with charge 2, discharge 5, the claim's
charging-mode behaviour would give SoC 50.2, but the code's only update
gives 49.7. -/
theorem c2_counterexample :
    (Battery.update ⟨50, 53, 0, 40⟩ 2 5).soc = 49.7 ∧
    (Battery.update_spec ⟨50, 53, 0, 40⟩ 2 5 true).soc = 50.2 ∧
    (49.7 : ℚ) ≠ 50.2 := by
  refine ⟨?_, ?_, by norm_num⟩
  · norm_num [Battery.update]
  · norm_num [Battery.update_spec]

/-- Claim C2 (amended): `Battery::update` takes only charge and
discharge currents; net current is always `charge - discharge`, SoC
integrates by `net * 0.1` clamped into [0, 100], and the spec's
three-argument form coincides with the code's on the calls the program
makes (discharge current 0 while charging). -/
theorem c2_battery_update_net_current (b : Battery) (c d : ℚ) :
    (b.update c d).soc = min 100 (max 0 (b.soc + (c - d) * 0.1)) ∧
    (b.update c d).current = c - d ∧
    b.update_spec c d false = b.update c d ∧
    b.update_spec c 0 true = b.update c 0 := by
  refine ⟨Battery.update_soc_eq b c d, rfl, rfl, ?_⟩
  simp [Battery.update, Battery.update_spec]

/-- Claim C3 counterexample: `PidController::new` with `dt = 0` succeeds
and returns a usable controller, while the spec's checked construction
rejects it; nothing is rejected at construction time. -/
theorem c3_counterexample :
    PidController.new 1 1 1 0 = ⟨1, 1, 1, 0, 0, 0⟩ ∧
    PidController.new_checked 1 1 1 0 = none := by
  refine ⟨rfl, ?_⟩
  simp [PidController.new_checked]

/-- Claim C3 (amended): `PidController::new` performs no validation:
even for non-positive `dt` it returns a controller with the given gains
and `dt` and zeroed state, where the spec's checked construction returns
none; the source has no hysteresis-selector constructor at all. -/
theorem c3_pid_new_accepts_nonpositive_dt (kp ki kd dt : ℚ) (h : dt ≤ 0) :
    PidController.new kp ki kd dt = ⟨kp, ki, kd, 0, 0, dt⟩ ∧
    PidController.new_checked kp ki kd dt = none := by
  refine ⟨rfl, ?_⟩
  simp [PidController.new_checked, h]

/-- Claim C3 witness: construction succeeds at `dt = 0`. -/
theorem c3_pid_new_accepts_nonpositive_dt_witness :
    PidController.new 2 3 4 0 = ⟨2, 3, 4, 0, 0, 0⟩ :=
  (c3_pid_new_accepts_nonpositive_dt 2 3 4 0 (le_refl 0)).1

/-- Claim C4 counterexample: at SoC 0 with discharge exceeding charge
the SoC stays 0 (clamped), not strictly decreasing; and with charge
equal to discharge the SoC is unchanged, not increasing. -/
theorem c4_counterexample :
    (Battery.update ⟨0, 47, 0, 40⟩ 0 5).soc = 0 ∧
    ¬ (Battery.update ⟨0, 47, 0, 40⟩ 0 5).soc < 0 ∧
    ¬ 50 < (Battery.update ⟨50, 50, 0, 40⟩ 3 3).soc := by
  norm_num [Battery.update]

/-- Claim C4 (amended): for SoC in [0, 100] the update keeps SoC in
[0, 100]; SoC strictly decreases when discharge exceeds charge provided
SoC > 0, strictly increases when charge exceeds discharge provided
SoC < 100, and is unchanged when they are equal.  (The source update has
no mode flag.) -/
theorem c4_soc_invariant_and_monotonicity (b : Battery) (c d : ℚ)
    (h0 : 0 ≤ b.soc) (h1 : b.soc ≤ 100) :
    (0 ≤ (b.update c d).soc ∧ (b.update c d).soc ≤ 100) ∧
    (c < d → 0 < b.soc → (b.update c d).soc < b.soc) ∧
    (d < c → b.soc < 100 → b.soc < (b.update c d).soc) ∧
    (c = d → (b.update c d).soc = b.soc) := by
  have hs := Battery.update_soc_eq b c d
  refine ⟨⟨?_, ?_⟩, ?_, ?_, ?_⟩
  · rw [hs]; exact le_min (by norm_num) (le_max_left 0 _)
  · rw [hs]; exact min_le_left _ _
  · intro hcd hb
    rw [hs]
    rcases le_or_lt (b.soc + (c - d) * 0.1) 0 with hx | hx
    · rw [max_eq_left hx, min_eq_right (by norm_num : (0 : ℚ) ≤ 100)]
      exact hb
    · rw [max_eq_right hx.le]
      calc min 100 (b.soc + (c - d) * 0.1) ≤ b.soc + (c - d) * 0.1 := min_le_right _ _
        _ < b.soc := by linarith
  · intro hdc hb
    rw [hs]
    have hx : b.soc < b.soc + (c - d) * 0.1 := by linarith
    rw [max_eq_right (by linarith : (0 : ℚ) ≤ b.soc + (c - d) * 0.1)]
    rcases le_or_lt (b.soc + (c - d) * 0.1) 100 with hy | hy
    · rw [min_eq_right hy]; exact hx
    · rw [min_eq_left hy.le]; exact hb
  · intro heq
    subst heq
    rw [hs]
    have hz : b.soc + (c - c) * 0.1 = b.soc := by ring
    rw [hz, max_eq_right h0, min_eq_right h1]

/-- Claim C4 witness: at SoC 50 with charge 1, discharge 2, the SoC
strictly decreases. -/
theorem c4_soc_invariant_and_monotonicity_witness :
    (Battery.update ⟨50, 53, 0, 40⟩ 1 2).soc < 50 :=
  (c4_soc_invariant_and_monotonicity ⟨50, 53, 0, 40⟩ 1 2 (by norm_num)
    (by norm_num)).2.1 (by norm_num) (by norm_num)

/-- Claim C5: one manifold update changes pressure by exactly
`dP_mass - dP_leak - dP_vent - dP_control` before flooring at ambient;
the vent and control terms vanish at or below the 380 kPa target; and
both gains are strictly higher while discharging. -/
theorem c5_manifold_update_decomposition (m : Manifold) (mfi mfo dt : ℚ) (d : Bool) :
    (m.update mfi mfo dt d).pressure =
      max 101325
        (m.pressure +
          (dP_mass_term m.temperature m.volume mfi mfo dt - dP_leak_term m.pressure dt -
            dP_vent_term m.pressure dt d - dP_control_term m.pressure dt d)) ∧
    (m.pressure ≤ 380000 →
      dP_vent_term m.pressure dt d = 0 ∧ dP_control_term m.pressure dt d = 0) ∧
    k_vent_of false < k_vent_of true ∧
    k_control_of false < k_control_of true := by
  refine ⟨?_, ?_, by norm_num [k_vent_of], by norm_num [k_control_of]⟩
  · simp only [Manifold.update, dP_mass_term, dP_leak_term, dP_vent_term, dP_control_term,
      k_vent_of, k_control_of]
    exact ite_floor_eq_max _ _
  · intro h
    constructor <;> simp [dP_vent_term, dP_control_term, not_lt.mpr h]

/-- Claim C5 witness: below the target, the vent and control terms are
zero at a concrete state. -/
theorem c5_manifold_update_decomposition_witness :
    dP_vent_term 200000 1 true = 0 ∧ dP_control_term 200000 1 true = 0 :=
  (c5_manifold_update_decomposition ⟨200000, 0.1, 298⟩ 0 0 1 true).2.1 (by norm_num)

/-- Claim C8 counterexample: a controller with accumulated integral 2
and gains `ki = 1` returns output 2 on every zero-error call, so the
output is not 0 regardless of gains and prior state. -/
theorem c8_counterexample :
    ((⟨0, 1, 0, 0, 2, 1⟩ : PidController).computeSeq [5, 5]).2 = [2, 2] ∧
    (2 : ℚ) ≠ 0 := by
  constructor
  · norm_num [PidController.computeSeq, PidController.compute]
  · norm_num

/-- Claim C8 (amended): over any sequence of zero-error `compute` calls
the integral is unchanged and, once the sequence is nonempty,
`last_error` is 0; every returned output is 0 provided the controller
starts with zero integral and zero last error (as freshly constructed). -/
theorem c8_pid_zero_error_sequence (c : PidController) (vs : List ℚ) :
    (c.computeSeq vs).1.integral = c.integral ∧
    (vs ≠ [] → (c.computeSeq vs).1.last_error = 0) ∧
    (c.integral = 0 → c.last_error = 0 → ∀ o ∈ (c.computeSeq vs).2, o = 0) := by
  refine ⟨computeSeq_integral c vs, ?_, ?_⟩
  · intro hne
    cases vs with
    | nil => exact absurd rfl hne
    | cons v vs => exact computeSeq_last_error c v vs
  · intro h1 h2
    exact (computeSeq_zero_outputs c vs h1 h2).2

/-- Claim C8 witness: a fresh controller after one zero-error call has
`last_error = 0`. -/
theorem c8_pid_zero_error_sequence_witness :
    ((PidController.new 1 1 1 1).computeSeq [3]).1.last_error = 0 :=
  (c8_pid_zero_error_sequence (PidController.new 1 1 1 1) [3]).2.1 (by simp)

end BMS
